import Mathlib

/-!
Verification of the resume-search service (`main.py`, `agents.py`,
`chroma_utils.py`, `resume_data.py`) against its specification.

The service is a thin orchestration layer over two external services: an
LLM chat-completion API and an embedding-based vector store.  The shallow
embedding below models:

* documents and their metadata dictionaries (`Document`, `metaGet`);
* the vector store's similarity search as "sort the stored documents by
  distance to the query, nearest first, and keep the first `k`", for an
  arbitrary distance function supplied as a parameter;
* every external LLM call as an oracle function supplied as a parameter,
  together with an explicit log (`ExtCall`) of the external calls each
  code path performs, mirroring the call sites of the source;
* the FastAPI endpoints `search_resumes` and `chat_resumes`, including
  the `try`/`except` wrapper of `chat_resumes`: an `HTTPException`
  raised inside the `try` block is an `Exception`, so the blanket
  `except Exception` clause catches it and re-raises it as a 500.
-/

namespace ResumeSearch

/-- A stored document: `page_content` plus a string-keyed metadata
dictionary, modelled as an association list (`chroma_utils.py`,
`langchain_core.documents.Document`). -/
structure Document where
  page_content : String
  metadata : List (String × String)
deriving DecidableEq

/-- Optional metadata lookup: the value stored under `key`, if any. -/
def metaGet? (m : List (String × String)) (key : String) : Option String :=
  (m.find? fun p => p.1 == key).map Prod.snd

/-- Python `dict.get(key, dflt)`: the value under `key`, else `dflt`. -/
def metaGet (m : List (String × String)) (key dflt : String) : String :=
  match m.find? fun p => p.1 == key with
  | some p => p.2
  | none => dflt

/-- A distance metric: distance from a query string to a stored document
(the composition of query embedding and vector distance, both external). -/
def Dist : Type := String → Document → Nat

/-- "Nearer to the query `q`" ordering on documents. -/
def distLe (dist : Dist) (q : String) (a b : Document) : Prop :=
  dist q a ≤ dist q b

instance (dist : Dist) (q : String) : DecidableRel (distLe dist q) :=
  fun a b => Nat.decLe (dist q a) (dist q b)

/-- Modelled from the spec: the vector store's `similarity_search(query, k)`
(`langchain_community.vectorstores.Chroma`, outside `src/`) "embeds the
query text, returns the k entries whose vectors are nearest under the
store's configured distance metric, ordered nearest-first" and "returns an
empty sequence (never an error) when the collection is empty".  Modelled
as a stable sort of the store by distance to the query followed by
taking the first `k`. -/
def similarity_search (dist : Dist) (store : List Document) (query : String)
    (k : Nat) : List Document :=
  (store.insertionSort (distLe dist query)).take k

/-- `ChromaDBManager.search_resumes` (`chroma_utils.py` lines 57-72):
delegates to `similarity_search(query, k)`. -/
def ChromaDBManager_search_resumes (dist : Dist) (store : List Document)
    (query : String) (k : Nat) : List Document :=
  similarity_search dist store query k

/-- A call to an external service: an LLM chat completion (tagged with the
call site) or an embedding of a query string (every similarity search
embeds its query). -/
inductive ExtCall where
  | llm : String → ExtCall
  | embedding : String → ExtCall
deriving DecidableEq

/-- The formatted record shape shared by the `/search_resumes` endpoint
(`main.py`, `ResumeResult`) and the agents' search tool (`agents.py`). -/
structure ResumeResult where
  name : String
  role : String
  experience : String
  content_snippet : String
deriving DecidableEq

/-- The per-document formatting performed identically in `main.py` lines
115-121 and `agents.py` lines 30-36: metadata fields defaulted to "N/A",
`content_snippet` set to the full `page_content` (the truncating variant
is commented out in both files). -/
def formatDoc (doc : Document) : ResumeResult :=
  { name := metaGet doc.metadata "name" "N/A"
    role := metaGet doc.metadata "role" "N/A"
    experience := metaGet doc.metadata "experience" "N/A"
    content_snippet := doc.page_content }

/-- Response body of `/search_resumes` (`main.py`, `SearchResponse`). -/
structure SearchResponse where
  results : List ResumeResult
  message : String
deriving DecidableEq

/-- Outcome of an HTTP endpoint: a 200 body or an error status + detail. -/
inductive ApiResult (α : Type) where
  | ok : α → ApiResult α
  | httpError : Nat → String → ApiResult α
deriving DecidableEq

/-- HTTP status of an endpoint outcome (FastAPI default success is 200). -/
def ApiResult.statusCode {α : Type} : ApiResult α → Nat
  | .ok _ => 200
  | .httpError c _ => c

/-- The `/search_resumes` endpoint (`main.py` lines 100-125): top-5 search,
each document formatted by the shared field mapping; the only external
call is the query embedding inside the store search. -/
def api_search_resumes (dist : Dist) (store : List Document)
    (query : String) : ApiResult SearchResponse × List ExtCall :=
  let results := ChromaDBManager_search_resumes dist store query 5
  (.ok { results := results.map formatDoc
         message := "Search completed successfully." },
   [.embedding query])

/-- `search_resumes_tool` (`agents.py` lines 19-37): top-3 search, each
document formatted by the shared field mapping. -/
def search_resumes_tool (dist : Dist) (store : List Document)
    (query : String) : List ResumeResult :=
  (ChromaDBManager_search_resumes dist store query 3).map formatDoc

/-- LangChain message: `HumanMessage` or `AIMessage` content. -/
inductive LCMessage where
  | human : String → LCMessage
  | ai : String → LCMessage
deriving DecidableEq

/-- Python `str.strip()`: remove leading and trailing whitespace. -/
def pyStrip (s : String) : String :=
  String.mk (((s.data.dropWhile Char.isWhitespace).reverse.dropWhile
    Char.isWhitespace).reverse)

/-- The LangGraph state (`agents.py`, `AgentState`). -/
structure AgentState where
  input : String
  chat_history : List LCMessage
  search_query : String
  search_results : List ResumeResult
  final_response : String
deriving DecidableEq

/-- The external LLM services, as oracles: the single agent's executor
run, the query-understanding chain, and the response-synthesis chain
(each returns the reply content for the given inputs). -/
structure Oracles where
  singleAgent : String → List LCMessage → String
  queryLLM : String → List LCMessage → String
  synthLLM : String → List LCMessage → String → String

/-- `query_understanding_node` (`agents.py` lines 82-105): one LLM call;
`search_query` is set to `response.content.strip()`. -/
def query_understanding_node (o : Oracles) (s : AgentState) :
    AgentState × List ExtCall :=
  ({ s with search_query := pyStrip (o.queryLLM s.input s.chat_history) },
   [.llm "query_understanding"])

/-- `resume_search_node` (`agents.py` lines 107-117): invokes the search
tool with `state["search_query"]` exactly as stored. -/
def resume_search_node (dist : Dist) (store : List Document)
    (s : AgentState) : AgentState × List ExtCall :=
  ({ s with search_results := search_resumes_tool dist store s.search_query },
   [.embedding s.search_query])

/-- The fixed apology returned when retrieval found nothing
(`agents.py` line 178). -/
def apologyResponse : String :=
  "I couldn\x27t find any resumes matching your request. Could you please try rephrasing or providing more details?"

/-- The `results_str` formatting of `response_generation_node`
(`agents.py` lines 181-184). -/
def results_str (rs : List ResumeResult) : String :=
  String.intercalate "\n" (rs.map fun r =>
    "- " ++ r.name ++ " (" ++ r.role ++ ", " ++ r.experience ++ "): "
      ++ r.content_snippet)

/-- `response_generation_node` (`agents.py` lines 166-209): if
`search_results` is empty the fixed apology is returned and no LLM call
is made; otherwise one LLM call produces `response.content.strip()`. -/
def response_generation_node (o : Oracles) (s : AgentState) :
    AgentState × List ExtCall :=
  if s.search_results.isEmpty then
    ({ s with final_response := apologyResponse }, [])
  else
    ({ s with final_response :=
        pyStrip (o.synthLLM s.input s.chat_history
          (results_str s.search_results)) },
     [.llm "response_generation"])

/-- The compiled LangGraph app (`agents.py` lines 211-231): the linear
pipeline query_understanding → resume_search → response_generation. -/
def multi_agent_app (o : Oracles) (dist : Dist) (store : List Document)
    (init : AgentState) : AgentState × List ExtCall :=
  let r1 := query_understanding_node o init
  let r2 := resume_search_node dist store r1.1
  let r3 := response_generation_node o r2.1
  (r3.1, r1.2 ++ r2.2 ++ r3.2)

/-- A chat-history entry of the HTTP API (`main.py`, `ChatMessage`). -/
structure ChatMessage where
  role : String
  content : String
deriving DecidableEq

/-- Request body of `/chat_resumes` (`main.py`, `ChatRequest`). -/
structure ChatRequest where
  user_message : String
  chat_history : List ChatMessage
  agent_type : String
deriving DecidableEq

/-- Response body of `/chat_resumes` (`main.py`, `ChatResponse`). -/
structure ChatResponse where
  response : String
  updated_chat_history : List ChatMessage
deriving DecidableEq

/-- The history conversion loop of `chat_resumes` (`main.py` lines
143-149): "human" and "ai" entries become LangChain messages, any other
role is silently ignored. -/
def toLCHistory (h : List ChatMessage) : List LCMessage :=
  h.filterMap fun m =>
    if m.role = "human" then some (.human m.content)
    else if m.role = "ai" then some (.ai m.content)
    else none

/-- The reverse conversion of `chat_resumes` (`main.py` lines 184-188):
`HumanMessage` maps back to role "human", everything else to "ai". -/
def fromLCMessage (m : LCMessage) : ChatMessage :=
  match m with
  | .human c => { role := "human", content := c }
  | .ai c => { role := "ai", content := c }

/-- `fastapi.HTTPException`: an exception carrying a status and detail. -/
structure HTTPExc where
  status_code : Nat
  detail : String
deriving DecidableEq

/-- `str(e)` for an `HTTPException` (starlette renders it as
"{status_code}: {detail}"). -/
def strOfHTTPExc (e : HTTPExc) : String :=
  toString e.status_code ++ ": " ++ e.detail

/-- The successful tail of `chat_resumes` (`main.py` lines 179-193):
append the human message and the AI reply to the converted history, then
convert back to API messages. -/
def chatSuccess (lc : List LCMessage) (user_message ai_response : String) :
    ChatResponse :=
  let updated := lc ++ [LCMessage.human user_message, LCMessage.ai ai_response]
  { response := ai_response
    updated_chat_history := updated.map fromLCMessage }

/-- The body of the `try` block of `chat_resumes` (`main.py` lines
140-193): convert the history, dispatch on `agent_type` ("single" runs
the agent executor, "multi" runs the LangGraph app from the documented
initial state, anything else raises `HTTPException(400)`), then build the
response.  Paired with the log of external calls performed. -/
def chat_resumes_inner (o : Oracles) (dist : Dist) (store : List Document)
    (req : ChatRequest) : Except HTTPExc ChatResponse × List ExtCall :=
  let lc := toLCHistory req.chat_history
  if req.agent_type = "single" then
    let out := o.singleAgent req.user_message lc
    (.ok (chatSuccess lc req.user_message out), [.llm "single_agent"])
  else if req.agent_type = "multi" then
    let run := multi_agent_app o dist store
      { input := req.user_message, chat_history := lc, search_query := ""
        search_results := [], final_response := "" }
    (.ok (chatSuccess lc req.user_message run.1.final_response), run.2)
  else
    (.error { status_code := 400
              detail := "Invalid agent_type. Must be \x27single\x27 or \x27multi\x27." },
     [])

/-- The `/chat_resumes` endpoint (`main.py` lines 127-196).  The `except
Exception` clause wraps the whole `try` body; `fastapi.HTTPException` is
a subclass of `Exception`, so the 400 raised for an invalid `agent_type`
is caught here too and re-raised as a 500 whose detail embeds `str(e)`. -/
def chat_resumes (o : Oracles) (dist : Dist) (store : List Document)
    (req : ChatRequest) : ApiResult ChatResponse × List ExtCall :=
  match chat_resumes_inner o dist store req with
  | (.ok r, calls) => (.ok r, calls)
  | (.error e, calls) =>
      (.httpError 500 ("Error during chat: " ++ strOfHTTPExc e), calls)

/-- A seed resume record (`resume_data.py`): identifier, display name,
free-text content and metadata. -/
structure Resume where
  id : String
  name : String
  content : String
  metadata : List (String × String)
deriving DecidableEq

/-- The startup population logic of `main.py` lines 31-44, as the list of
`add_resumes` calls it makes: inside the `try`, if the collection count
is 0 the seeds are added, otherwise nothing is added; if counting raises,
the `except` clause adds the seeds unconditionally.  Counting is modelled
as one environment-supplied outcome (deterministic within startup), and
`add_resumes` itself is assumed not to raise. -/
def startup_populate (seeds : List Resume)
    (countResult : Except String Nat) : List (List Resume) :=
  match countResult with
  | .ok n => if n = 0 then [seeds] else []
  | .error _ => [seeds]

/-! Concrete fixtures used to instantiate the theorems below. -/

/-- Fixture: the constant-zero distance metric. -/
def distConst : Dist := fun _ _ => 0

/-- Fixture: oracles with fixed replies (the query-understanding reply
carries surrounding whitespace). -/
def oracleFix : Oracles :=
  { singleAgent := fun _ _ => "ok"
    queryLLM := fun _ _ => " python "
    synthLLM := fun _ _ _ => "r" }

/-- Fixture: a document whose metadata has "name" and "experience" but no
"role". -/
def docAlice : Document :=
  { page_content := "Alice Johnson - Senior Python Developer. 8 years experience."
    metadata := [("name", "Alice Johnson"), ("experience", "8 years")] }

/-- Fixture: a chat request with an unknown `agent_type`. -/
def reqInvalid : ChatRequest :=
  { user_message := "hi", chat_history := [], agent_type := "bogus" }

/-- Fixture: a chat request whose history contains a "system" entry. -/
def reqSystem : ChatRequest :=
  { user_message := "hi"
    chat_history := [{ role := "system", content := "remember" }]
    agent_type := "single" }

/-- Fixture: a chat request whose history has only "human"/"ai" roles. -/
def reqValid : ChatRequest :=
  { user_message := "hi"
    chat_history := [{ role := "human", content := "a" },
                     { role := "ai", content := "b" }]
    agent_type := "single" }

/-- Fixture: a multi-agent chat request with a mixed-role history. -/
def reqMix : ChatRequest :=
  { user_message := "hi"
    chat_history := [{ role := "human", content := "a" },
                     { role := "system", content := "s" }]
    agent_type := "multi" }

/-- Fixture: the initial LangGraph state for input "x". -/
def stInit : AgentState :=
  { input := "x", chat_history := [], search_query := ""
    search_results := [], final_response := "" }

end ResumeSearch

namespace ResumeSearch

/-! Helper lemmas about the history conversions of `chat_resumes`. -/

/-- Converting to LangChain messages and back yields the sublist of
entries whose role is "human" or "ai", each entry unchanged. -/
theorem toLC_map_fromLC (h : List ChatMessage) :
    (toLCHistory h).map fromLCMessage
      = h.filter fun m => m.role == "human" || m.role == "ai" := by
  induction h with
  | nil => rfl
  | cons m t ih =>
    obtain ⟨r, c⟩ := m
    by_cases h1 : r = "human"
    · subst h1
      simp [toLCHistory, List.filterMap_cons, fromLCMessage,
        List.filter_cons] at ih ⊢
      exact ih
    · by_cases h2 : r = "ai"
      · subst h2
        simp [toLCHistory, List.filterMap_cons, fromLCMessage,
          List.filter_cons] at ih ⊢
        exact ih
      · simp [toLCHistory, List.filterMap_cons, fromLCMessage,
          List.filter_cons, h1, h2] at ih ⊢
        exact ih

/-- Entries whose role is outside "human"/"ai" do not contribute to the
converted LangChain history. -/
theorem toLC_filter (h : List ChatMessage) :
    toLCHistory (h.filter fun m => m.role == "human" || m.role == "ai")
      = toLCHistory h := by
  induction h with
  | nil => rfl
  | cons m t ih =>
    obtain ⟨r, c⟩ := m
    by_cases h1 : r = "human"
    · subst h1
      simp [toLCHistory, List.filter_cons, List.filterMap_cons] at ih ⊢
      exact ih
    · by_cases h2 : r = "ai"
      · subst h2
        simp [toLCHistory, List.filter_cons, List.filterMap_cons] at ih ⊢
        exact ih
      · simp [toLCHistory, List.filter_cons, List.filterMap_cons, h1, h2]
          at ih ⊢
        exact ih

/-- On histories containing only "human"/"ai" roles, the conversion to
LangChain messages and back is the identity. -/
theorem toLC_roundtrip (h : List ChatMessage)
    (hr : ∀ m ∈ h, m.role = "human" ∨ m.role = "ai") :
    (toLCHistory h).map fromLCMessage = h := by
  rw [toLC_map_fromLC]
  refine List.filter_eq_self.mpr fun m hm => ?_
  rcases hr m hm with h1 | h1 <;> simp [h1]

/-- For a known agent type, `chat_resumes` succeeds and its response is
built by `chatSuccess` from the converted history, the user message, and
some assistant reply. -/
theorem chat_resumes_success (o : Oracles) (dist : Dist)
    (store : List Document) (req : ChatRequest)
    (hAgent : req.agent_type = "single" ∨ req.agent_type = "multi") :
    ∃ out calls, chat_resumes o dist store req
      = (.ok (chatSuccess (toLCHistory req.chat_history) req.user_message out),
         calls) := by
  rcases hAgent with h | h
  · exact ⟨o.singleAgent req.user_message (toLCHistory req.chat_history),
      [.llm "single_agent"], by simp [chat_resumes, chat_resumes_inner, h]⟩
  · exact ⟨(multi_agent_app o dist store
        { input := req.user_message, chat_history := toLCHistory req.chat_history
          search_query := "", search_results := [], final_response := "" }).1.final_response,
      (multi_agent_app o dist store
        { input := req.user_message, chat_history := toLCHistory req.chat_history
          search_query := "", search_results := [], final_response := "" }).2,
      by simp [chat_resumes, chat_resumes_inner, h]⟩

/-! Helper lemmas about the modelled similarity search. -/

/-- The documents returned by the store search are ordered
nearest-first. -/
theorem db_search_pairwise (dist : Dist) (store : List Document) (q : String)
    (k : Nat) :
    List.Pairwise (fun a b => dist q a ≤ dist q b)
      (ChromaDBManager_search_resumes dist store q k) := by
  haveI : IsTotal Document (distLe dist q) := ⟨fun a b => Nat.le_total _ _⟩
  haveI : IsTrans Document (distLe dist q) := ⟨fun a b c => Nat.le_trans⟩
  have hs : List.Pairwise (distLe dist q) (store.insertionSort (distLe dist q)) :=
    List.sorted_insertionSort _ _
  exact List.Pairwise.sublist (List.take_sublist _ _) hs

/-- The store splits, up to permutation, into the returned documents and
the unreturned remainder. -/
theorem db_search_perm_drop (dist : Dist) (store : List Document) (q : String)
    (k : Nat) :
    store.Perm (ChromaDBManager_search_resumes dist store q k
      ++ (store.insertionSort (distLe dist q)).drop k) := by
  have hp : (store.insertionSort (distLe dist q)).Perm store :=
    List.perm_insertionSort _ _
  have he : ChromaDBManager_search_resumes dist store q k
      ++ (store.insertionSort (distLe dist q)).drop k
      = store.insertionSort (distLe dist q) := by
    exact List.take_append_drop k (store.insertionSort (distLe dist q))
  rw [he]
  exact hp.symm

/-- Every returned document is at least as near to the query as every
unreturned document. -/
theorem db_search_cross (dist : Dist) (store : List Document) (q : String)
    (k : Nat) :
    ∀ a ∈ ChromaDBManager_search_resumes dist store q k,
      ∀ b ∈ (store.insertionSort (distLe dist q)).drop k,
        dist q a ≤ dist q b := by
  haveI : IsTotal Document (distLe dist q) := ⟨fun a b => Nat.le_total _ _⟩
  haveI : IsTrans Document (distLe dist q) := ⟨fun a b c => Nat.le_trans⟩
  have hs : List.Pairwise (distLe dist q) (store.insertionSort (distLe dist q)) :=
    List.sorted_insertionSort _ _
  rw [← List.take_append_drop k (store.insertionSort (distLe dist q))] at hs
  exact (List.pairwise_append.mp hs).2.2

/-- Every document returned by the store search is a stored document. -/
theorem mem_db_search (dist : Dist) (store : List Document) (q : String)
    (k : Nat) (d : Document)
    (hd : d ∈ ChromaDBManager_search_resumes dist store q k) : d ∈ store := by
  have h1 : d ∈ store.insertionSort (distLe dist q) := List.take_subset _ _ hd
  exact (List.mem_insertionSort _).mp h1

/-- `metaGet` is the defaulted form of the optional lookup `metaGet?`. -/
theorem metaGet_eq_getD (m : List (String × String)) (key dflt : String) :
    metaGet m key dflt = (metaGet? m key).getD dflt := by
  unfold metaGet metaGet?
  cases m.find? fun p => p.1 == key <;> simp

/-! Claim theorems. -/

/-- Claim C1 (code bug, evaluated at the failing input): for a chat
request whose `agent_type` is neither "single" nor "multi", `chat_resumes`
performs no external LLM or embedding call, but it returns HTTP 500, not
the claimed 400: the `HTTPException(400)` raised inside the `try` block
is an `Exception`, so the blanket `except Exception` clause catches it
and re-raises it with status 500. -/
theorem chat_resumes_invalid_agent_type_gives_500 :
    (chat_resumes oracleFix distConst [] reqInvalid).1.statusCode = 500 ∧
    (chat_resumes oracleFix distConst [] reqInvalid).1.statusCode ≠ 400 ∧
    (chat_resumes oracleFix distConst [] reqInvalid).2 = [] := by
  decide

/-- Claim C2 (amended): for every successful `chat_resumes` request
(`agent_type` "single" or "multi") all of whose `chat_history` entries
have role "human" or "ai", the returned `updated_chat_history` equals the
input `chat_history` with exactly two entries appended — a human entry
with the request's `user_message`, then an ai entry with the returned
response — with all earlier entries unchanged. -/
theorem chat_resumes_round_trip (o : Oracles) (dist : Dist)
    (store : List Document) (req : ChatRequest)
    (hAgent : req.agent_type = "single" ∨ req.agent_type = "multi")
    (hRoles : ∀ m ∈ req.chat_history, m.role = "human" ∨ m.role = "ai") :
    ∃ resp, (chat_resumes o dist store req).1 = .ok resp ∧
      resp.updated_chat_history = req.chat_history
        ++ [{ role := "human", content := req.user_message },
            { role := "ai", content := resp.response }] := by
  obtain ⟨out, calls, heq⟩ := chat_resumes_success o dist store req hAgent
  refine ⟨chatSuccess (toLCHistory req.chat_history) req.user_message out,
    by rw [heq], ?_⟩
  simp [chatSuccess, List.map_append, fromLCMessage,
    toLC_roundtrip req.chat_history hRoles]

/-- Claim C2 witness: the round trip at a concrete request whose history
has only "human"/"ai" roles. -/
theorem chat_resumes_round_trip_witness :
    (∀ m ∈ reqValid.chat_history, m.role = "human" ∨ m.role = "ai") ∧
    ∃ resp, (chat_resumes oracleFix distConst [] reqValid).1 = .ok resp ∧
      resp.updated_chat_history = reqValid.chat_history
        ++ [{ role := "human", content := reqValid.user_message },
            { role := "ai", content := resp.response }] :=
  ⟨by decide,
   chat_resumes_round_trip oracleFix distConst [] reqValid (Or.inl rfl)
     (by decide)⟩

/-- Claim C2 counterexample: for a successful request whose history holds
a "system" entry, the returned `updated_chat_history` (computed here) is
not the input history with two entries appended — the "system" entry was
dropped. -/
theorem chat_resumes_round_trip_counterexample :
    (chat_resumes oracleFix distConst [] reqSystem).1
      = .ok { response := "ok"
              updated_chat_history := [{ role := "human", content := "hi" },
                                       { role := "ai", content := "ok" }] } ∧
    ¬ ([ChatMessage.mk "human" "hi", ChatMessage.mk "ai" "ok"]
        = reqSystem.chat_history
          ++ [ChatMessage.mk "human" "hi", ChatMessage.mk "ai" "ok"]) := by
  decide

/-- Claim C3: whenever the retrieval stage yielded an empty result list,
`response_generation_node` returns exactly the fixed apology string and
performs no external call (for every synthesis oracle, input, chat
history and prior fields — the synthesis LLM plays no part). -/
theorem empty_retrieval_skips_synthesis (o : Oracles) (inp : String)
    (hist : List LCMessage) (q fr : String) :
    response_generation_node o
      { input := inp, chat_history := hist, search_query := q
        search_results := [], final_response := fr }
      = ({ input := inp, chat_history := hist, search_query := q
           search_results := [], final_response := apologyResponse }, []) := by
  simp [response_generation_node]

/-- Claim C4 (amended): in the staged pipeline, the query-understanding
LLM reply is stripped of leading and trailing whitespace (Python
`str.strip()`), and that stripped string — possibly empty — is used
unchanged as the search phrase recorded in the state, passed to the
retrieval tool, and embedded for the store search. -/
theorem pipeline_search_phrase_is_stripped_output (o : Oracles) (dist : Dist)
    (store : List Document) (inp : String) (hist : List LCMessage)
    (q0 fr0 : String) (rs0 : List ResumeResult) :
    ((multi_agent_app o dist store
        { input := inp, chat_history := hist, search_query := q0
          search_results := rs0, final_response := fr0 }).1.search_query
      = pyStrip (o.queryLLM inp hist)) ∧
    ((multi_agent_app o dist store
        { input := inp, chat_history := hist, search_query := q0
          search_results := rs0, final_response := fr0 }).1.search_results
      = search_resumes_tool dist store (pyStrip (o.queryLLM inp hist))) ∧
    ∃ tail, (multi_agent_app o dist store
        { input := inp, chat_history := hist, search_query := q0
          search_results := rs0, final_response := fr0 }).2
      = ExtCall.llm "query_understanding"
          :: ExtCall.embedding (pyStrip (o.queryLLM inp hist)) :: tail := by
  refine ⟨?_, ?_, ?_⟩
  · by_cases h : (search_resumes_tool dist store
        (pyStrip (o.queryLLM inp hist))).isEmpty <;>
      simp [multi_agent_app, query_understanding_node, resume_search_node,
        response_generation_node, h]
  · by_cases h : (search_resumes_tool dist store
        (pyStrip (o.queryLLM inp hist))).isEmpty <;>
      simp [multi_agent_app, query_understanding_node, resume_search_node,
        response_generation_node, h]
  · exact ⟨(response_generation_node o (resume_search_node dist store
        (query_understanding_node o
          { input := inp, chat_history := hist, search_query := q0
            search_results := rs0, final_response := fr0 }).1).1).2, rfl⟩

/-- Claim C4 counterexample: when the query-understanding LLM replies
" python " (with surrounding whitespace), the search phrase recorded and
passed to retrieval is "python", not the LLM string verbatim. -/
theorem pipeline_search_phrase_not_verbatim :
    oracleFix.queryLLM "x" [] = " python " ∧
    (multi_agent_app oracleFix distConst [] stInit).1.search_query = "python" ∧
    (multi_agent_app oracleFix distConst [] stInit).2
      = [ExtCall.llm "query_understanding", ExtCall.embedding "python"] ∧
    ("python" : String) ≠ " python " := by
  decide

/-- Claim C5: for every non-empty query, `search_resumes` succeeds with
at most 5 results — the formatted top-5 documents, which are ordered
nearest-first under the store's distance metric, and each of which is at
least as near to the query as every stored document not returned (the
store is a permutation of returned ++ unreturned). -/
theorem search_resumes_top5_nearest (dist : Dist) (store : List Document)
    (q : String) (_hq : q ≠ "") :
    ∃ resp rest,
      (api_search_resumes dist store q).1 = .ok resp ∧
      resp.results
        = (ChromaDBManager_search_resumes dist store q 5).map formatDoc ∧
      resp.results.length ≤ 5 ∧
      List.Pairwise (fun a b => dist q a ≤ dist q b)
        (ChromaDBManager_search_resumes dist store q 5) ∧
      store.Perm (ChromaDBManager_search_resumes dist store q 5 ++ rest) ∧
      ∀ a ∈ ChromaDBManager_search_resumes dist store q 5, ∀ b ∈ rest,
        dist q a ≤ dist q b := by
  refine ⟨_, (store.insertionSort (distLe dist q)).drop 5, rfl, rfl, ?_,
    db_search_pairwise dist store q 5, db_search_perm_drop dist store q 5,
    db_search_cross dist store q 5⟩
  simp [ChromaDBManager_search_resumes, similarity_search]

/-- Claim C5 witness: the top-5 property at a concrete non-empty query. -/
theorem search_resumes_top5_nearest_witness :
    ("x" : String) ≠ "" ∧
    ∃ resp rest,
      (api_search_resumes distConst [] "x").1 = .ok resp ∧
      resp.results
        = (ChromaDBManager_search_resumes distConst [] "x" 5).map formatDoc ∧
      resp.results.length ≤ 5 ∧
      List.Pairwise (fun a b => distConst "x" a ≤ distConst "x" b)
        (ChromaDBManager_search_resumes distConst [] "x" 5) ∧
      List.Perm [] (ChromaDBManager_search_resumes distConst [] "x" 5 ++ rest) ∧
      ∀ a ∈ ChromaDBManager_search_resumes distConst [] "x" 5, ∀ b ∈ rest,
        distConst "x" a ≤ distConst "x" b :=
  ⟨by decide, search_resumes_top5_nearest distConst [] "x" (by decide)⟩

/-- Claim C6: on an empty collection, `search_resumes` returns HTTP 200
with an empty results list, for every query string and distance metric —
never an error. -/
theorem search_resumes_empty_collection (dist : Dist) (q : String) :
    (api_search_resumes dist [] q).1.statusCode = 200 ∧
    (api_search_resumes dist [] q).1
      = .ok { results := [], message := "Search completed successfully." } :=
  ⟨rfl, rfl⟩

/-- Claim C7: for every query, the retrieval tool returns at most 3
records, one per store result in the same order, where each of `name`,
`role`, `experience` equals the corresponding metadata value when present
and "N/A" when absent, and `content_snippet` carries the document's
content unmodified. -/
theorem search_tool_shape (dist : Dist) (store : List Document) (q : String) :
    (search_resumes_tool dist store q).length ≤ 3 ∧
    (search_resumes_tool dist store q).length
      = (ChromaDBManager_search_resumes dist store q 3).length ∧
    ∀ i (h1 : i < (search_resumes_tool dist store q).length)
      (h2 : i < (ChromaDBManager_search_resumes dist store q 3).length),
      (((search_resumes_tool dist store q).get ⟨i, h1⟩).name
        = (metaGet? ((ChromaDBManager_search_resumes dist store q 3).get
            ⟨i, h2⟩).metadata "name").getD "N/A") ∧
      (((search_resumes_tool dist store q).get ⟨i, h1⟩).role
        = (metaGet? ((ChromaDBManager_search_resumes dist store q 3).get
            ⟨i, h2⟩).metadata "role").getD "N/A") ∧
      (((search_resumes_tool dist store q).get ⟨i, h1⟩).experience
        = (metaGet? ((ChromaDBManager_search_resumes dist store q 3).get
            ⟨i, h2⟩).metadata "experience").getD "N/A") ∧
      (((search_resumes_tool dist store q).get ⟨i, h1⟩).content_snippet
        = ((ChromaDBManager_search_resumes dist store q 3).get
            ⟨i, h2⟩).page_content) := by
  refine ⟨?_, ?_, ?_⟩
  · simp [search_resumes_tool, ChromaDBManager_search_resumes,
      similarity_search]
  · simp [search_resumes_tool]
  · intro i h1 h2
    simp [search_resumes_tool, formatDoc, metaGet_eq_getD]

/-- Claim C7 witness: the field mapping for the first record returned
over a one-document store (its metadata has a "name" but no "role"). -/
theorem search_tool_shape_witness :
    (((search_resumes_tool distConst [docAlice] "q").get ⟨0, by decide⟩).name
      = (metaGet? ((ChromaDBManager_search_resumes distConst [docAlice] "q" 3).get
          ⟨0, by decide⟩).metadata "name").getD "N/A") ∧
    (((search_resumes_tool distConst [docAlice] "q").get
        ⟨0, by decide⟩).content_snippet
      = ((ChromaDBManager_search_resumes distConst [docAlice] "q" 3).get
          ⟨0, by decide⟩).page_content) :=
  ⟨((search_tool_shape distConst [docAlice] "q").2.2 0 (by decide)
      (by decide)).1,
   ((search_tool_shape distConst [docAlice] "q").2.2 0 (by decide)
      (by decide)).2.2.2⟩

/-- Claim C8: `chat_resumes` silently drops every history entry whose
role is neither "human" nor "ai": the agents' input history is unchanged
by removing such entries, and the returned `updated_chat_history` is the
filtered input history plus the two new entries, so dropped entries
appear in neither. -/
theorem chat_resumes_drops_unknown_roles (o : Oracles) (dist : Dist)
    (store : List Document) (req : ChatRequest)
    (hAgent : req.agent_type = "single" ∨ req.agent_type = "multi") :
    toLCHistory req.chat_history
      = toLCHistory (req.chat_history.filter
          fun m => m.role == "human" || m.role == "ai") ∧
    ∃ resp, (chat_resumes o dist store req).1 = .ok resp ∧
      resp.updated_chat_history
        = (req.chat_history.filter
            fun m => m.role == "human" || m.role == "ai")
          ++ [{ role := "human", content := req.user_message },
              { role := "ai", content := resp.response }] := by
  refine ⟨(toLC_filter req.chat_history).symm, ?_⟩
  obtain ⟨out, calls, heq⟩ := chat_resumes_success o dist store req hAgent
  refine ⟨chatSuccess (toLCHistory req.chat_history) req.user_message out,
    by rw [heq], ?_⟩
  simp [chatSuccess, List.map_append, fromLCMessage, toLC_map_fromLC]

/-- Claim C8 witness: the dropping behaviour at a concrete multi-agent
request whose history holds a "system" entry. -/
theorem chat_resumes_drops_unknown_roles_witness :
    toLCHistory reqMix.chat_history
      = toLCHistory (reqMix.chat_history.filter
          fun m => m.role == "human" || m.role == "ai") ∧
    ∃ resp, (chat_resumes oracleFix distConst [] reqMix).1 = .ok resp ∧
      resp.updated_chat_history
        = (reqMix.chat_history.filter
            fun m => m.role == "human" || m.role == "ai")
          ++ [{ role := "human", content := reqMix.user_message },
              { role := "ai", content := resp.response }] :=
  chat_resumes_drops_unknown_roles oracleFix distConst [] reqMix (Or.inr rfl)

/-- Claim C9: every result of the `search_resumes` endpoint and of the
retrieval tool carries as `content_snippet` the full stored text of some
stored document, with no truncation. -/
theorem content_snippet_untruncated (dist : Dist) (store : List Document)
    (q : String) (r : ResumeResult) :
    (∀ resp, (api_search_resumes dist store q).1 = .ok resp →
      r ∈ resp.results → ∃ d ∈ store, r.content_snippet = d.page_content) ∧
    (r ∈ search_resumes_tool dist store q →
      ∃ d ∈ store, r.content_snippet = d.page_content) := by
  constructor
  · intro resp hresp hr
    simp only [api_search_resumes, ApiResult.ok.injEq] at hresp
    subst hresp
    obtain ⟨d, hd, hfd⟩ := List.mem_map.mp hr
    exact ⟨d, mem_db_search dist store q 5 d hd, by rw [← hfd]; rfl⟩
  · intro hr
    obtain ⟨d, hd, hfd⟩ := List.mem_map.mp hr
    exact ⟨d, mem_db_search dist store q 3 d hd, by rw [← hfd]; rfl⟩

/-- Claim C9 witness: the tool result over a one-document store carries
that document's full text. -/
theorem content_snippet_untruncated_witness :
    ∃ d ∈ [docAlice], (formatDoc docAlice).content_snippet = d.page_content :=
  (content_snippet_untruncated distConst [docAlice] "q" (formatDoc docAlice)).2
    (by decide)

/-- Claim C10: at startup the seed records are added exactly when the
collection count is 0; a positive count adds nothing; and when counting
raises, the seeds are added unconditionally by the fallback. -/
theorem startup_populate_condition (seeds : List Resume) (n : Nat)
    (e : String) :
    startup_populate seeds (.ok 0) = [seeds] ∧
    startup_populate seeds (.ok (n + 1)) = [] ∧
    startup_populate seeds (.error e) = [seeds] :=
  ⟨rfl, by simp [startup_populate], rfl⟩

end ResumeSearch
